import Mathlib

/-!
Verification of the digiBoard live-session relay (server/index.js).

The relay is a process-wide in-memory coordinator over socket.io.  We embed
its state and the seven inbound-message handlers (`checkTeacherStatus`,
`startLive`, `stopLive`, `joinTeacherRoom`, `leaveTeacherRoom`,
`whiteboardUpdate`, `disconnect`) plus connection establishment as pure
functions from a relay state to a new relay state together with the list of
outbound messages, each tagged with the connection it is sent to.

Modelling decisions, each mirroring the source:
* a connection (socket) is identified by a `Nat`;
* the per-socket closure variables `currentTeacherId` and `isStudent`
  (index.js lines 53-54) form `ConnState`, stored in an association list
  keyed by connection id;
* `liveTeachers` (line 36) is an association list `teacherId -> subscriber
  list` with set semantics (JS `Map` of `Set`s: insertion order, no
  duplicates);
* socket.io rooms `teacher-<id>` are an association list keyed by the
  teacher id; `socket.join` / `socket.leave` become `roomJoin` / `roomLeave`;
* `io.emit` sends to every currently connected socket; `socket.emit` to one;
  `socket.broadcast.to(room).emit` to every room member except the sender;
* on disconnect the transport first removes the socket from the connected
  set and from every room, then the `disconnect` handler runs with the
  socket's last closure state (socket.io fires the handler after the rooms
  have been left, and the closed socket receives no further emission).
-/

namespace DigiBoard

/-- Outbound relay messages (index.js lines 60, 67, 78, 92, 108, 126, 148). -/
inductive Msg : Type where
  | teacherOnline (teacherId : String)
  | teacherOffline (teacherId : String)
  | liveError (message : String)
  | whiteboardUpdate (teacherId : String) (whiteboardData : String)
deriving DecidableEq, Repr

/-- The per-socket closure variables of the connection handler
(index.js lines 53-54). -/
structure ConnState : Type where
  currentTeacherId : Option String
  isStudent : Bool
deriving DecidableEq, Repr

/-- Association-list lookup (first binding wins, like JS `Map.get`). -/
def alookup {α β : Type} [DecidableEq α] : List (α × β) → α → Option β
  | [], _ => none
  | (k, v) :: rest, a => if k = a then some v else alookup rest a

/-- Association-list insert-or-replace (like JS `Map.set`: update in place
when the key exists, append otherwise). -/
def aset {α β : Type} [DecidableEq α] : List (α × β) → α → β → List (α × β)
  | [], a, b => [(a, b)]
  | (k, v) :: rest, a, b => if k = a then (a, b) :: rest else (k, v) :: aset rest a b

/-- Association-list delete (like JS `Map.delete`). -/
def aerase {α β : Type} [DecidableEq α] : List (α × β) → α → List (α × β)
  | [], _ => []
  | (k, v) :: rest, a => if k = a then aerase rest a else (k, v) :: aerase rest a

/-- The whole relay state: connected sockets, per-socket closure state,
the `liveTeachers` map, socket.io room membership (keyed by teacher id),
and `currentLiveTeacher` (index.js lines 36-37). -/
structure RelayState : Type where
  conns : List Nat
  connState : List (Nat × ConnState)
  liveTeachers : List (String × List Nat)
  rooms : List (String × List Nat)
  currentLiveTeacher : Option String
deriving DecidableEq, Repr

/-- The empty relay at server start. -/
def initState : RelayState := ⟨[], [], [], [], none⟩

/-- Closure state of a socket (fresh sockets start with
`currentTeacherId = null`, `isStudent = false`). -/
def getConn (s : RelayState) (c : Nat) : ConnState :=
  (alookup s.connState c).getD ⟨none, false⟩

/-- `socket.join`: add the socket to a room (rooms auto-create; joining a
room one is already in is a no-op). -/
def roomJoin (rooms : List (String × List Nat)) (t : String) (c : Nat) :
    List (String × List Nat) :=
  match alookup rooms t with
  | none => aset rooms t [c]
  | some ms => aset rooms t (if c ∈ ms then ms else ms ++ [c])

/-- `socket.leave`: remove the socket from a room (no-op when absent). -/
def roomLeave (rooms : List (String × List Nat)) (t : String) (c : Nat) :
    List (String × List Nat) :=
  match alookup rooms t with
  | none => rooms
  | some ms => aset rooms t (ms.filter (fun d => d ≠ c))

/-- Current membership of teacher `t`'s room. -/
def roomMembers (s : RelayState) (t : String) : List Nat :=
  (alookup s.rooms t).getD []

/-- `io.emit`: one copy of `m` to every connected socket, in connection
order. -/
def broadcastAll (s : RelayState) (m : Msg) : List (Nat × Msg) :=
  s.conns.map (fun d => (d, m))

/-- `students.forEach(studentSocket.leave(...))`: evict every socket in
`subs` from teacher `t`'s room (index.js lines 85-87 and 141-143). -/
def evictAll (t : String) (subs : List Nat) (r : List (String × List Nat)) :
    List (String × List Nat) :=
  subs.foldl (fun r d => roomLeave r t d) r

/-- Remove a socket from every room (transport-level part of closing). -/
def eraseFromRooms (c : Nat) (r : List (String × List Nat)) :
    List (String × List Nat) :=
  r.map (fun p => (p.1, p.2.filter (fun d => d ≠ c)))

/-- A new socket connects (index.js line 51): it is registered with fresh
closure state.  Connection ids are unique, so connecting an id that is
already present does nothing. -/
def connect (s : RelayState) (c : Nat) : RelayState × List (Nat × Msg) :=
  if c ∈ s.conns then (s, [])
  else ({ s with conns := s.conns ++ [c], connState := aset s.connState c ⟨none, false⟩ }, [])

/-- JS truthiness of the nullable teacher-id variables
(`currentLiveTeacher`, `currentTeacherId`): `null` and the empty string
are falsy; every other string is truthy. -/
def truthy : Option String → Bool
  | none => false
  | some t => decide (t ≠ "")

/-- The `checkTeacherStatus` handler (index.js lines 57-62): the guard on
line 59 is JS truthiness of `currentLiveTeacher`, so a `teacherOnline`
reply goes to the requesting socket only when the live teacher's id is
neither `null` nor the empty string. -/
def checkTeacherStatus (s : RelayState) (c : Nat) : RelayState × List (Nat × Msg) :=
  match s.currentLiveTeacher with
  | none => (s, [])
  | some t => if t = "" then (s, []) else (s, [(c, Msg.teacherOnline t)])

/-- The exact `liveError` message text (index.js line 68). -/
def liveErrMsg : String := "Another teacher is currently live. Please try again later."

/-- The acceptance path of `startLive` (index.js lines 73-78). -/
def startLiveAccept (s : RelayState) (c : Nat) (teacherId : String) :
    RelayState × List (Nat × Msg) :=
  let st := getConn s c
  let s1 : RelayState :=
    { s with
      liveTeachers := aset s.liveTeachers teacherId [],
      connState := aset s.connState c { st with currentTeacherId := some teacherId },
      currentLiveTeacher := some teacherId,
      rooms := roomJoin s.rooms teacherId c }
  (s1, broadcastAll s1 (Msg.teacherOnline teacherId))

/-- The `startLive` handler (index.js lines 64-79).  The guard on line 65
is JS truthiness of `currentLiveTeacher`: both `null` and the empty
string fail it, so a `GoLive` is rejected only when the live teacher's id
is nonempty. -/
def startLive (s : RelayState) (c : Nat) (teacherId : String) :
    RelayState × List (Nat × Msg) :=
  if truthy s.currentLiveTeacher then (s, [(c, Msg.liveError liveErrMsg)])
  else startLiveAccept s c teacherId

/-- Session teardown for teacher `teacherId` (index.js lines 83-93, and
verbatim again in the disconnect handler, lines 139-149): when a session
exists, evict every subscriber from the room, delete the session, clear
`currentLiveTeacher` when it matches, and broadcast `teacherOffline` to
all connected sockets; otherwise do nothing. -/
def teardownSession (s : RelayState) (teacherId : String) :
    RelayState × List (Nat × Msg) :=
  match alookup s.liveTeachers teacherId with
  | none => (s, [])
  | some subs =>
    let s1 : RelayState :=
      { s with
        rooms := evictAll teacherId subs s.rooms,
        liveTeachers := aerase s.liveTeachers teacherId,
        currentLiveTeacher :=
          if s.currentLiveTeacher = some teacherId then none else s.currentLiveTeacher }
    (s1, broadcastAll s1 (Msg.teacherOffline teacherId))

/-- The `stopLive` handler (index.js lines 81-98): the session teardown,
then, independently, when the invoking socket's own association matches,
it leaves the room and clears the association (lines 94-97). -/
def stopLive (s : RelayState) (c : Nat) (teacherId : String) :
    RelayState × List (Nat × Msg) :=
  let r1 := teardownSession s teacherId
  let st := getConn r1.1 c
  if st.currentTeacherId = some teacherId then
    ({ r1.1 with
        rooms := roomLeave r1.1.rooms teacherId c,
        connState := aset r1.1.connState c { st with currentTeacherId := none } }, r1.2)
  else r1

/-- The `joinTeacherRoom` handler (index.js lines 100-110): only effective
when a session exists; the joiner enters the room and the subscriber set,
is marked as a student, records the association, and alone receives
`teacherOnline`. -/
def joinTeacherRoom (s : RelayState) (c : Nat) (teacherId : String) :
    RelayState × List (Nat × Msg) :=
  match alookup s.liveTeachers teacherId with
  | none => (s, [])
  | some subs =>
    let s1 : RelayState :=
      { s with
        rooms := roomJoin s.rooms teacherId c,
        liveTeachers := aset s.liveTeachers teacherId (if c ∈ subs then subs else subs ++ [c]),
        connState := aset s.connState c ⟨some teacherId, true⟩ }
    (s1, [(c, Msg.teacherOnline teacherId)])

/-- Delete socket `c` from teacher `teacherId`'s subscriber set when a
session exists (index.js lines 114-116, and verbatim again in the
disconnect handler, lines 134-136). -/
def removeSubscriber (s : RelayState) (c : Nat) (teacherId : String) : RelayState :=
  match alookup s.liveTeachers teacherId with
  | none => s
  | some subs =>
    { s with liveTeachers := aset s.liveTeachers teacherId (subs.filter (fun d => d ≠ c)) }

/-- The `leaveTeacherRoom` handler (index.js lines 112-121): drop `c` from
the subscriber set when a session exists, unconditionally leave the room,
and clear a matching association. -/
def leaveTeacherRoom (s : RelayState) (c : Nat) (teacherId : String) :
    RelayState × List (Nat × Msg) :=
  let s2 : RelayState :=
    { removeSubscriber s c teacherId with
        rooms := roomLeave (removeSubscriber s c teacherId).rooms teacherId c }
  let st := getConn s2 c
  if st.currentTeacherId = some teacherId then
    ({ s2 with connState := aset s2.connState c { st with currentTeacherId := none } }, [])
  else (s2, [])

/-- The `whiteboardUpdate` handler (index.js lines 123-127):
`socket.broadcast.to(room).emit` delivers the payload verbatim to every
room member except the sender; no state changes. -/
def whiteboardUpdate (s : RelayState) (c : Nat) (teacherId : String)
    (whiteboardData : String) : RelayState × List (Nat × Msg) :=
  (s, ((roomMembers s teacherId).filter (fun d => d ≠ c)).map
      (fun d => (d, Msg.whiteboardUpdate teacherId whiteboardData)))

/-- Transport-level effect of a socket closing: it is removed from the
connected set, its closure state is dropped, and it leaves every room. -/
def removeConnTransport (s : RelayState) (c : Nat) : RelayState :=
  { s with
    conns := s.conns.filter (fun d => d ≠ c),
    connState := aerase s.connState c,
    rooms := eraseFromRooms c s.rooms }

/-- The `disconnect` handler (index.js lines 129-152), run after the
transport removal, with the socket's last closure state `st`.  The guard
on line 131 is JS truthiness of `currentTeacherId`: when the association
is `null` or the empty string, no cleanup branch runs at all. -/
def disconnectHandler (s : RelayState) (c : Nat) (st : ConnState) :
    RelayState × List (Nat × Msg) :=
  match st.currentTeacherId with
  | none => (s, [])
  | some tid =>
    if tid = "" then (s, [])
    else if st.isStudent then
      (removeSubscriber s c tid, [])
    else
      teardownSession s tid

/-- A socket disconnects: transport removal, then the handler. -/
def disconnect (s : RelayState) (c : Nat) : RelayState × List (Nat × Msg) :=
  disconnectHandler (removeConnTransport s c) c (getConn s c)

/-- One inbound event of the relay. -/
inductive Cmd : Type where
  | connect (c : Nat)
  | checkTeacherStatus (c : Nat)
  | startLive (c : Nat) (teacherId : String)
  | stopLive (c : Nat) (teacherId : String)
  | joinTeacherRoom (c : Nat) (teacherId : String)
  | leaveTeacherRoom (c : Nat) (teacherId : String)
  | whiteboardUpdate (c : Nat) (teacherId : String) (whiteboardData : String)
  | disconnect (c : Nat)
deriving DecidableEq, Repr

/-- Dispatch one event. -/
def step (s : RelayState) : Cmd → RelayState × List (Nat × Msg)
  | Cmd.connect c => connect s c
  | Cmd.checkTeacherStatus c => checkTeacherStatus s c
  | Cmd.startLive c t => startLive s c t
  | Cmd.stopLive c t => stopLive s c t
  | Cmd.joinTeacherRoom c t => joinTeacherRoom s c t
  | Cmd.leaveTeacherRoom c t => leaveTeacherRoom s c t
  | Cmd.whiteboardUpdate c t d => whiteboardUpdate s c t d
  | Cmd.disconnect c => disconnect s c

/-- Run a sequence of events (the relay serializes all handlers). -/
def run (s : RelayState) : List Cmd → RelayState
  | [] => s
  | cmd :: rest => run (step s cmd).1 rest

/-- Whether an outbound message is the `liveError` rejection. -/
def isLiveError : Msg → Bool
  | Msg.liveError _ => true
  | _ => false

/-- Count, along a sequence of `startLive` requests, how many are accepted
(observationally: produce no `liveError`). -/
def countGoLiveSuccesses : RelayState → List (Nat × String) → Nat
  | _, [] => 0
  | s, (c, t) :: rest =>
    (if (startLive s c t).2.any (fun m => isLiveError m.2) then 0 else 1) +
      countGoLiveSuccesses (startLive s c t).1 rest

/-! ### Association-list and room lemmas -/

theorem alookup_aset_self {α β : Type} [DecidableEq α] (l : List (α × β)) (a : α) (b : β) :
    alookup (aset l a b) a = some b := by
  induction l with
  | nil => simp [aset, alookup]
  | cons p rest ih =>
    by_cases h : p.1 = a
    · simp [aset, h, alookup]
    · simp [aset, h, alookup, ih]

theorem alookup_aset_ne {α β : Type} [DecidableEq α] (l : List (α × β)) (a d : α) (b : β)
    (h : d ≠ a) : alookup (aset l a b) d = alookup l d := by
  have h' : ¬a = d := fun hh => h hh.symm
  induction l with
  | nil => simp [aset, alookup, h']
  | cons p rest ih =>
    by_cases hp : p.1 = a
    · simp [aset, hp, alookup, h']
    · simp only [aset, if_neg hp]
      by_cases hd : p.1 = d
      · simp [alookup, hd]
      · simp [alookup, hd, ih]

theorem alookup_aerase_self {α β : Type} [DecidableEq α] (l : List (α × β)) (a : α) :
    alookup (aerase l a) a = none := by
  induction l with
  | nil => simp [aerase, alookup]
  | cons p rest ih =>
    by_cases h : p.1 = a
    · simp [aerase, h, ih]
    · simp [aerase, h, alookup, ih]

theorem alookup_aerase_ne {α β : Type} [DecidableEq α] (l : List (α × β)) (a d : α)
    (h : d ≠ a) : alookup (aerase l a) d = alookup l d := by
  have h' : ¬a = d := fun hh => h hh.symm
  induction l with
  | nil => simp [aerase]
  | cons p rest ih =>
    by_cases hp : p.1 = a
    · simp [aerase, hp, alookup, h', ih]
    · simp [aerase, hp, alookup, ih]

theorem aerase_aset {α β : Type} [DecidableEq α] (l : List (α × β)) (a : α) (b : β) :
    aerase (aset l a b) a = aerase l a := by
  induction l with
  | nil => simp [aset, aerase]
  | cons p rest ih =>
    by_cases h : p.1 = a
    · simp [aset, h, aerase]
    · simp [aset, h, aerase, ih]

theorem aset_self_of_lookup {α β : Type} [DecidableEq α] (l : List (α × β)) (a : α) (b : β)
    (h : alookup l a = some b) : aset l a b = l := by
  induction l with
  | nil => simp [alookup] at h
  | cons p rest ih =>
    obtain ⟨k, v⟩ := p
    by_cases hp : k = a
    · simp only [alookup, if_pos hp] at h
      have hv : v = b := Option.some.inj h
      simp [aset, hp, hv]
    · simp only [alookup, if_neg hp] at h
      simp [aset, hp, ih h]

theorem alookup_exists_pair {α β : Type} [DecidableEq α] (l : List (α × β)) (a : α) (b : β)
    (h : alookup l a = some b) : ∃ p ∈ l, p.2 = b := by
  induction l with
  | nil => simp [alookup] at h
  | cons p rest ih =>
    by_cases hp : p.1 = a
    · refine ⟨p, List.mem_cons_self p rest, ?_⟩
      simp only [alookup, if_pos hp] at h
      exact Option.some.inj h
    · simp only [alookup, if_neg hp] at h
      obtain ⟨q, hq, hq2⟩ := ih h
      exact ⟨q, List.mem_cons_of_mem p hq, hq2⟩

theorem filter_filter_comm {α : Type} (l : List α) (p q : α → Bool) :
    (l.filter p).filter q = (l.filter q).filter p := by
  induction l with
  | nil => rfl
  | cons x rest ih =>
    by_cases hp : p x <;> by_cases hq : q x <;>
      simp [List.filter_cons, hp, hq, ih]

theorem alookup_mapSnd {α β : Type} [DecidableEq α] (f : β → β) (l : List (α × β))
    (a : α) : alookup (l.map (fun p => (p.1, f p.2))) a = (alookup l a).map f := by
  induction l with
  | nil => rfl
  | cons p rest ih =>
    obtain ⟨k, v⟩ := p
    by_cases hk : k = a
    · simp [alookup, hk]
    · simp [alookup, hk, ih]

theorem mapSnd_aset {α β : Type} [DecidableEq α] (f : β → β) (l : List (α × β))
    (a : α) (b : β) :
    (aset l a b).map (fun p => (p.1, f p.2)) =
      aset (l.map (fun p => (p.1, f p.2))) a (f b) := by
  induction l with
  | nil => rfl
  | cons p rest ih =>
    obtain ⟨k, v⟩ := p
    by_cases hk : k = a
    · simp [aset, hk]
    · simp [aset, hk, ih]

theorem alookup_eraseFromRooms (c : Nat) (r : List (String × List Nat)) (t : String) :
    alookup (eraseFromRooms c r) t = (alookup r t).map (List.filter (fun d => d ≠ c)) := by
  show alookup (r.map (fun p => (p.1, List.filter (fun d => d ≠ c) p.2))) t =
    (alookup r t).map (List.filter (fun d => d ≠ c))
  exact alookup_mapSnd (List.filter (fun d => d ≠ c)) r t

theorem eraseFromRooms_aset (c : Nat) (r : List (String × List Nat)) (t : String)
    (v : List Nat) :
    eraseFromRooms c (aset r t v) =
      aset (eraseFromRooms c r) t (v.filter (fun d => d ≠ c)) := by
  show (aset r t v).map (fun p => (p.1, List.filter (fun d => d ≠ c) p.2)) =
    aset (r.map (fun p => (p.1, List.filter (fun d => d ≠ c) p.2))) t
      (List.filter (fun d => d ≠ c) v)
  exact mapSnd_aset (List.filter (fun d => d ≠ c)) r t v

theorem eraseFromRooms_roomLeave (c : Nat) (r : List (String × List Nat)) (t : String)
    (d : Nat) :
    eraseFromRooms c (roomLeave r t d) = roomLeave (eraseFromRooms c r) t d := by
  unfold roomLeave
  cases h : alookup r t with
  | none =>
    rw [alookup_eraseFromRooms, h]
    rfl
  | some ms =>
    rw [alookup_eraseFromRooms, h]
    show eraseFromRooms c (aset r t (ms.filter (fun x => x ≠ d))) =
      aset (eraseFromRooms c r) t ((ms.filter (fun x => x ≠ c)).filter (fun x => x ≠ d))
    rw [eraseFromRooms_aset, filter_filter_comm]

theorem eraseFromRooms_evictAll (c : Nat) (t : String) (subs : List Nat)
    (r : List (String × List Nat)) :
    eraseFromRooms c (evictAll t subs r) = evictAll t subs (eraseFromRooms c r) := by
  induction subs generalizing r with
  | nil => rfl
  | cons x rest ih =>
    show eraseFromRooms c (evictAll t rest (roomLeave r t x)) = _
    rw [ih, eraseFromRooms_roomLeave]
    rfl

/-- No room of `r` contains socket `c`. -/
def roomsAvoid (c : Nat) (r : List (String × List Nat)) : Prop :=
  ∀ p ∈ r, c ∉ p.2

theorem roomsAvoid_eraseFromRooms (c : Nat) (r : List (String × List Nat)) :
    roomsAvoid c (eraseFromRooms c r) := by
  intro p hp
  simp only [eraseFromRooms, List.mem_map] at hp
  obtain ⟨q, _, rfl⟩ := hp
  intro hc
  have := (List.mem_filter.mp hc).2
  simp at this

theorem roomsAvoid_aset (c : Nat) (r : List (String × List Nat)) (t : String) (v : List Nat)
    (h : roomsAvoid c r) (hv : c ∉ v) : roomsAvoid c (aset r t v) := by
  induction r with
  | nil =>
    intro p hp
    simp only [aset, List.mem_singleton] at hp
    rw [hp]
    exact hv
  | cons q rest ih =>
    intro p hp
    by_cases hq : q.1 = t
    · simp only [aset, if_pos hq, List.mem_cons] at hp
      rcases hp with hp | hp
      · rw [hp]; exact hv
      · exact h p (List.mem_cons_of_mem q hp)
    · simp only [aset, if_neg hq, List.mem_cons] at hp
      rcases hp with hp | hp
      · rw [hp]; exact h q (List.mem_cons_self q rest)
      · exact ih (fun x hx => h x (List.mem_cons_of_mem q hx)) p hp

theorem roomsAvoid_roomLeave (c : Nat) (r : List (String × List Nat)) (t : String) (d : Nat)
    (h : roomsAvoid c r) : roomsAvoid c (roomLeave r t d) := by
  unfold roomLeave
  cases hm : alookup r t with
  | none => exact h
  | some ms =>
    obtain ⟨p, hp, hp2⟩ := alookup_exists_pair r t ms hm
    refine roomsAvoid_aset c r t _ h ?_
    intro hc
    exact h p hp (hp2 ▸ (List.mem_filter.mp hc).1)

theorem roomsAvoid_evictAll (c : Nat) (t : String) (subs : List Nat)
    (r : List (String × List Nat)) (h : roomsAvoid c r) :
    roomsAvoid c (evictAll t subs r) := by
  induction subs generalizing r with
  | nil => exact h
  | cons x rest ih => exact ih (roomLeave r t x) (roomsAvoid_roomLeave c r t x h)

theorem roomLeave_of_avoid (c : Nat) (r : List (String × List Nat)) (t : String)
    (h : roomsAvoid c r) : roomLeave r t c = r := by
  unfold roomLeave
  cases hm : alookup r t with
  | none => rfl
  | some ms =>
    obtain ⟨p, hp, hp2⟩ := alookup_exists_pair r t ms hm
    have hms : c ∉ ms := hp2 ▸ h p hp
    have hfil : ms.filter (fun d => d ≠ c) = ms := by
      apply List.filter_eq_self.mpr
      intro a ha
      simp only [decide_eq_true_eq]
      intro hac
      exact hms (hac ▸ ha)
    show aset r t (ms.filter (fun d => d ≠ c)) = r
    rw [hfil]
    exact aset_self_of_lookup r t ms hm

theorem not_mem_members_roomLeave_self (r : List (String × List Nat)) (t : String) (x : Nat) :
    x ∉ (alookup (roomLeave r t x) t).getD [] := by
  unfold roomLeave
  cases hm : alookup r t with
  | none => simp [hm]
  | some ms =>
    rw [alookup_aset_self]
    intro hx
    have := (List.mem_filter.mp hx).2
    simp at this

theorem not_mem_members_roomLeave (r : List (String × List Nat)) (t : String) (d x : Nat)
    (h : x ∉ (alookup r t).getD []) : x ∉ (alookup (roomLeave r t d) t).getD [] := by
  unfold roomLeave
  cases hm : alookup r t with
  | none => rw [hm] at h ⊢; exact h
  | some ms =>
    rw [hm] at h
    rw [alookup_aset_self]
    intro hx
    exact h (List.mem_filter.mp hx).1

theorem not_mem_members_evictAll_of_not_mem (t : String) (subs : List Nat)
    (r : List (String × List Nat)) (x : Nat) (h : x ∉ (alookup r t).getD []) :
    x ∉ (alookup (evictAll t subs r) t).getD [] := by
  induction subs generalizing r with
  | nil => exact h
  | cons y rest ih =>
    exact ih (roomLeave r t y) (not_mem_members_roomLeave r t y x h)

theorem evictAll_evicts (t : String) (subs : List Nat) (r : List (String × List Nat))
    (x : Nat) (h : x ∈ subs) : x ∉ (alookup (evictAll t subs r) t).getD [] := by
  induction subs generalizing r with
  | nil => cases h
  | cons y rest ih =>
    rcases List.mem_cons.mp h with rfl | hx
    · exact not_mem_members_evictAll_of_not_mem t rest (roomLeave r t x) x
        (not_mem_members_roomLeave_self r t x)
    · exact ih (roomLeave r t y) hx

theorem filter_fst_map_pair_gen {β : Type} (l : List Nat) (m : β) (p : Nat → Bool) :
    (l.map (fun d => (d, m))).filter (fun q => p q.1) =
      (l.filter p).map (fun d => (d, m)) := by
  induction l with
  | nil => rfl
  | cons x rest ih =>
    by_cases hx : p x <;> simp [List.filter_cons, hx, ih]

theorem filter_fst_map_pair (l : List Nat) (m : Msg) (c : Nat) :
    (l.map (fun d => (d, m))).filter (fun q => q.1 ≠ c) =
      (l.filter (fun d => d ≠ c)).map (fun d => (d, m)) :=
  filter_fst_map_pair_gen l m (fun d => d ≠ c)

theorem any_isLiveError_map_false (l : List Nat) (t : String) :
    (l.map (fun d => (d, Msg.teacherOnline t))).any (fun m => isLiveError m.2) = false := by
  induction l with
  | nil => rfl
  | cons x rest ih => simp [isLiveError, ih]

theorem relayState_ext (a b : RelayState) (h1 : a.conns = b.conns)
    (h2 : a.connState = b.connState) (h3 : a.liveTeachers = b.liveTeachers)
    (h4 : a.rooms = b.rooms) (h5 : a.currentLiveTeacher = b.currentLiveTeacher) :
    a = b := by
  cases a
  cases b
  simp only [RelayState.mk.injEq]
  exact ⟨h1, h2, h3, h4, h5⟩

/-! ### Handler reduction lemmas -/

theorem startLive_busy (s : RelayState) (c : Nat) (tid : String)
    (h : truthy s.currentLiveTeacher = true) :
    startLive s c tid = (s, [(c, Msg.liveError liveErrMsg)]) := by
  unfold startLive
  rw [if_pos h]

theorem startLive_accept_eq (s : RelayState) (c : Nat) (tid : String)
    (h : truthy s.currentLiveTeacher = false) :
    startLive s c tid =
      ({ s with
          liveTeachers := aset s.liveTeachers tid [],
          connState := aset s.connState c { getConn s c with currentTeacherId := some tid },
          currentLiveTeacher := some tid,
          rooms := roomJoin s.rooms tid c },
        s.conns.map (fun d => (d, Msg.teacherOnline tid))) := by
  unfold startLive
  rw [if_neg (by simp [h])]
  rfl

theorem startLive_success (s : RelayState) (c : Nat) (tid : String)
    (h : s.currentLiveTeacher = none) :
    startLive s c tid =
      ({ s with
          liveTeachers := aset s.liveTeachers tid [],
          connState := aset s.connState c { getConn s c with currentTeacherId := some tid },
          currentLiveTeacher := some tid,
          rooms := roomJoin s.rooms tid c },
        s.conns.map (fun d => (d, Msg.teacherOnline tid))) := by
  apply startLive_accept_eq
  rw [h]
  rfl

theorem checkTeacherStatus_state (s : RelayState) (c : Nat) :
    (checkTeacherStatus s c).1 = s := by
  unfold checkTeacherStatus
  cases s.currentLiveTeacher with
  | none => rfl
  | some t =>
    show (if t = "" then (s, ([] : List (Nat × Msg)))
      else (s, [(c, Msg.teacherOnline t)])).1 = s
    by_cases he : t = ""
    · rw [if_pos he]
    · rw [if_neg he]

theorem checkTeacherStatus_live (s : RelayState) (c : Nat) (t : String)
    (hl : s.currentLiveTeacher = some t) (hne : t ≠ "") :
    checkTeacherStatus s c = (s, [(c, Msg.teacherOnline t)]) := by
  unfold checkTeacherStatus
  rw [hl]
  show (if t = "" then (s, []) else (s, [(c, Msg.teacherOnline t)])) = _
  rw [if_neg hne]

theorem teardownSession_none (s : RelayState) (tid : String)
    (h : alookup s.liveTeachers tid = none) : teardownSession s tid = (s, []) := by
  unfold teardownSession
  rw [h]

theorem teardownSession_some (s : RelayState) (tid : String) (subs : List Nat)
    (h : alookup s.liveTeachers tid = some subs) :
    teardownSession s tid =
      ({ s with
          rooms := evictAll tid subs s.rooms,
          liveTeachers := aerase s.liveTeachers tid,
          currentLiveTeacher :=
            if s.currentLiveTeacher = some tid then none else s.currentLiveTeacher },
        s.conns.map (fun d => (d, Msg.teacherOffline tid))) := by
  unfold teardownSession
  rw [h]
  rfl

theorem stopLive_eq_ite (s : RelayState) (c : Nat) (tid : String) :
    stopLive s c tid =
      (if (getConn (teardownSession s tid).1 c).currentTeacherId = some tid
       then { (teardownSession s tid).1 with
                rooms := roomLeave (teardownSession s tid).1.rooms tid c,
                connState := aset (teardownSession s tid).1.connState c
                  { getConn (teardownSession s tid).1 c with currentTeacherId := none } }
       else (teardownSession s tid).1,
       (teardownSession s tid).2) := by
  unfold stopLive
  by_cases hst : (getConn (teardownSession s tid).1 c).currentTeacherId = some tid
  · simp only [if_pos hst]
  · simp only [if_neg hst]

/-! ### C1: exclusivity of GoLive -/

/-- Concrete state with a live teacher: two sockets connect and socket 0
goes live as teacher `"T"`. -/
def wLiveState : RelayState :=
  run initState [Cmd.connect 0, Cmd.connect 1, Cmd.startLive 0 "T"]

/-- Concrete state with two connected sockets and nobody live. -/
def wFreshState : RelayState :=
  run initState [Cmd.connect 0, Cmd.connect 1]

/-- C1 demonstration of the code bug: teacher ids are unvalidated
client-supplied strings, and the exclusivity guard (index.js line 65) is
a JS truthiness test, which the empty string fails.  So after socket 0's
accepted `GoLive("")` the relay has `currentLiveTeacher = ""`, yet socket
1's `GoLive("x")` — a distinct teacher id, with no intervening stop or
disconnect — is also accepted: it receives no `liveError`, mutates the
state, broadcasts `teacherOnline "x"`, and two sessions coexist in the
table, violating the claimed at-most-one-live-teacher exclusivity. -/
theorem goLive_exclusivity_code_bug :
    (startLive wFreshState 0 "").1.currentLiveTeacher = some "" ∧
    (startLive (startLive wFreshState 0 "").1 1 "x").2 =
      [(0, Msg.teacherOnline "x"), (1, Msg.teacherOnline "x")] ∧
    (startLive (startLive wFreshState 0 "").1 1 "x").1.currentLiveTeacher = some "x" ∧
    alookup (startLive (startLive wFreshState 0 "").1 1 "x").1.liveTeachers "" = some [] ∧
    alookup (startLive (startLive wFreshState 0 "").1 1 "x").1.liveTeachers "x" = some [] ∧
    countGoLiveSuccesses wFreshState [(0, ""), (1, "x")] = 2 :=
  ⟨rfl, rfl, rfl, rfl, rfl, rfl⟩

/-! ### C4: successful GoLive -/

/-- C4: `GoLive(teacherId)` on connection `c` while no teacher is live
creates a session for `teacherId` with an empty subscriber set, sets
`currentLiveTeacher`, records `c`'s association, and broadcasts
`teacherOnline` to all connections, including `c` itself. -/
theorem goLive_fresh (s : RelayState) (c : Nat) (tid : String)
    (h : s.currentLiveTeacher = none) :
    alookup (startLive s c tid).1.liveTeachers tid = some [] ∧
    (startLive s c tid).1.currentLiveTeacher = some tid ∧
    (getConn (startLive s c tid).1 c).currentTeacherId = some tid ∧
    (startLive s c tid).2 = s.conns.map (fun d => (d, Msg.teacherOnline tid)) ∧
    (c ∈ s.conns → (c, Msg.teacherOnline tid) ∈ (startLive s c tid).2) := by
  rw [startLive_success s c tid h]
  refine ⟨alookup_aset_self s.liveTeachers tid [], rfl, ?_, rfl, ?_⟩
  · simp [getConn, alookup_aset_self]
  · intro hc
    exact List.mem_map.mpr ⟨c, hc, rfl⟩

/-- Witness for C4 at a concrete input. -/
theorem goLive_fresh_witness :
    wFreshState.currentLiveTeacher = none ∧
    (alookup (startLive wFreshState 0 "T").1.liveTeachers "T" = some [] ∧
     (startLive wFreshState 0 "T").1.currentLiveTeacher = some "T" ∧
     (getConn (startLive wFreshState 0 "T").1 0).currentTeacherId = some "T" ∧
     (startLive wFreshState 0 "T").2 =
       wFreshState.conns.map (fun d => (d, Msg.teacherOnline "T")) ∧
     (0 ∈ wFreshState.conns →
       (0, Msg.teacherOnline "T") ∈ (startLive wFreshState 0 "T").2)) :=
  ⟨rfl, goLive_fresh wFreshState 0 "T" rfl⟩

/-! ### C5: JoinTeacherRoom for a non-live teacher -/

/-- C5: `JoinTeacherRoom(T)` when no session exists for `T` is a complete
no-op: no reply, no change to any relay state, global or local. -/
theorem joinTeacherRoom_not_live_noop (s : RelayState) (c : Nat) (tid : String)
    (h : alookup s.liveTeachers tid = none) :
    joinTeacherRoom s c tid = (s, []) := by
  unfold joinTeacherRoom
  rw [h]

/-- Witness for C5 at a concrete input: joining teacher `"U"`, who is not
live, in a state where `"T"` is live. -/
theorem joinTeacherRoom_not_live_noop_witness :
    alookup wLiveState.liveTeachers "U" = none ∧
    joinTeacherRoom wLiveState 1 "U" = (wLiveState, []) :=
  ⟨rfl, joinTeacherRoom_not_live_noop wLiveState 1 "U" rfl⟩

/-! ### C7: QueryStatus after a successful GoLive -/

/-- C7 counterexample: `GoLive("")` from a fresh state is accepted (the
line-65 guard sees `null`), so `currentLiveTeacher` is set to `""`; a
`QueryStatus` from another connection then receives no reply at all,
because the line-59 guard is a JS truthiness test and `""` is falsy —
contradicting the claimed `teacherOnline` reply after any successful
GoLive. -/
theorem queryStatus_after_goLive_cex :
    (startLive wFreshState 0 "").1.currentLiveTeacher = some "" ∧
    checkTeacherStatus (startLive wFreshState 0 "").1 1 =
      ((startLive wFreshState 0 "").1, []) :=
  ⟨rfl, rfl⟩

/-- C7 (amended): after any accepted `GoLive(tid)` with `tid` a nonempty
identifier, `QueryStatus` from any connection (including one other than
the teacher's) replies `teacherOnline` naming `tid` to the requesting
connection only, with no broadcast and no state change; it is idempotent
and side-effect-free.  (With the empty id the truthiness guard on
index.js line 59 suppresses the reply.) -/
theorem queryStatus_after_goLive (s : RelayState) (c0 c : Nat) (tid : String)
    (h : s.currentLiveTeacher = none) (hne : tid ≠ "") :
    checkTeacherStatus (startLive s c0 tid).1 c =
      ((startLive s c0 tid).1, [(c, Msg.teacherOnline tid)]) := by
  rw [startLive_success s c0 tid h]
  exact checkTeacherStatus_live _ c tid rfl hne

/-- Witness for the amended C7 at a concrete input. -/
theorem queryStatus_after_goLive_witness :
    wFreshState.currentLiveTeacher = none ∧
    ("T" : String) ≠ "" ∧
    checkTeacherStatus (startLive wFreshState 0 "T").1 1 =
      ((startLive wFreshState 0 "T").1, [(1, Msg.teacherOnline "T")]) :=
  ⟨rfl, by decide, queryStatus_after_goLive wFreshState 0 1 "T" rfl (by decide)⟩

/-! ### C6: idempotent StopLive -/

/-- C6: `StopLive(tid)` when no session exists for `tid` broadcasts
nothing, raises no error, and leaves the relay state (session table,
`currentLiveTeacher`, connected set, every other connection's local state,
and the invoker's role hint) unchanged; only the invoking connection's own
association with `tid`, when it equals `tid`, is cleared. -/
theorem stopLive_idempotent_no_session (s : RelayState) (c : Nat) (tid : String)
    (h : alookup s.liveTeachers tid = none) :
    (stopLive s c tid).2 = [] ∧
    (stopLive s c tid).1.liveTeachers = s.liveTeachers ∧
    (stopLive s c tid).1.currentLiveTeacher = s.currentLiveTeacher ∧
    (stopLive s c tid).1.conns = s.conns ∧
    (∀ d, d ≠ c → alookup (stopLive s c tid).1.connState d = alookup s.connState d) ∧
    (getConn (stopLive s c tid).1 c).isStudent = (getConn s c).isStudent ∧
    (getConn (stopLive s c tid).1 c).currentTeacherId =
      (if (getConn s c).currentTeacherId = some tid then none
       else (getConn s c).currentTeacherId) := by
  rw [stopLive_eq_ite, teardownSession_none s tid h]
  by_cases hst : (getConn s c).currentTeacherId = some tid
  · rw [if_pos hst]
    refine ⟨rfl, rfl, rfl, rfl, ?_, ?_, ?_⟩
    · intro d hd
      exact alookup_aset_ne s.connState c d _ hd
    · simp [getConn, alookup_aset_self]
    · rw [if_pos hst]
      simp [getConn, alookup_aset_self]
  · rw [if_neg hst]
    refine ⟨rfl, rfl, rfl, rfl, fun d _ => rfl, rfl, ?_⟩
    rw [if_neg hst]

/-- Witness for C6 at a concrete input: stopping teacher `"U"`, for whom
no session exists. -/
theorem stopLive_idempotent_no_session_witness :
    alookup wLiveState.liveTeachers "U" = none ∧
    (stopLive wLiveState 0 "U").2 = [] ∧
    (stopLive wLiveState 0 "U").1.liveTeachers = wLiveState.liveTeachers ∧
    (stopLive wLiveState 0 "U").1.currentLiveTeacher = wLiveState.currentLiveTeacher ∧
    alookup (stopLive wLiveState 0 "U").1.connState 1 = alookup wLiveState.connState 1 ∧
    (getConn (stopLive wLiveState 0 "U").1 0).currentTeacherId =
      (if (getConn wLiveState 0).currentTeacherId = some "U" then none
       else (getConn wLiveState 0).currentTeacherId) :=
  ⟨rfl,
   (stopLive_idempotent_no_session wLiveState 0 "U" rfl).1,
   (stopLive_idempotent_no_session wLiveState 0 "U" rfl).2.1,
   (stopLive_idempotent_no_session wLiveState 0 "U" rfl).2.2.1,
   (stopLive_idempotent_no_session wLiveState 0 "U" rfl).2.2.2.2.1 1 (by decide),
   (stopLive_idempotent_no_session wLiveState 0 "U" rfl).2.2.2.2.2.2⟩

/-! ### C9: StopLive's global effect does not depend on the invoker -/

/-- Projections of `stopLive` that do not depend on the invoking
connection: the session table, `currentLiveTeacher`, the connected set and
the emitted messages all come from the teardown alone. -/
theorem stopLive_proj (s : RelayState) (c : Nat) (tid : String) :
    (stopLive s c tid).1.liveTeachers = (teardownSession s tid).1.liveTeachers ∧
    (stopLive s c tid).1.currentLiveTeacher = (teardownSession s tid).1.currentLiveTeacher ∧
    (stopLive s c tid).1.conns = (teardownSession s tid).1.conns ∧
    (stopLive s c tid).2 = (teardownSession s tid).2 := by
  rw [stopLive_eq_ite]
  by_cases hst : (getConn (teardownSession s tid).1 c).currentTeacherId = some tid
  · rw [if_pos hst]
    exact ⟨rfl, rfl, rfl, rfl⟩
  · rw [if_neg hst]
    exact ⟨rfl, rfl, rfl, rfl⟩

/-- C9 (implicit): no check relates the invoker of `StopLive(tid)` to
`tid` — any connection's `StopLive(tid)` produces the same session table,
`currentLiveTeacher`, connected set and broadcast as any other's; and
whenever a session exists, any invoker (in particular one that never went
live as `tid` and never joined its room) thereby evicts all of `tid`'s
subscribers, deletes the session, clears a matching `currentLiveTeacher`,
and triggers the `teacherOffline` broadcast. -/
theorem stopLive_invoker_independent :
    (∀ (s : RelayState) (tid : String) (c1 c2 : Nat),
      (stopLive s c1 tid).1.liveTeachers = (stopLive s c2 tid).1.liveTeachers ∧
      (stopLive s c1 tid).1.currentLiveTeacher = (stopLive s c2 tid).1.currentLiveTeacher ∧
      (stopLive s c1 tid).1.conns = (stopLive s c2 tid).1.conns ∧
      (stopLive s c1 tid).2 = (stopLive s c2 tid).2) ∧
    (∀ (s : RelayState) (tid : String) (c : Nat) (subs : List Nat),
      alookup s.liveTeachers tid = some subs →
      alookup (stopLive s c tid).1.liveTeachers tid = none ∧
      (∀ x ∈ subs, x ∉ roomMembers (stopLive s c tid).1 tid) ∧
      (s.currentLiveTeacher = some tid → (stopLive s c tid).1.currentLiveTeacher = none) ∧
      (stopLive s c tid).2 = s.conns.map (fun d => (d, Msg.teacherOffline tid))) := by
  constructor
  · intro s tid c1 c2
    obtain ⟨h1, h2, h3, h4⟩ := stopLive_proj s c1 tid
    obtain ⟨g1, g2, g3, g4⟩ := stopLive_proj s c2 tid
    exact ⟨h1.trans g1.symm, h2.trans g2.symm, h3.trans g3.symm, h4.trans g4.symm⟩
  · intro s tid c subs hsess
    have ht := teardownSession_some s tid subs hsess
    refine ⟨?_, ?_, ?_, ?_⟩
    · rw [(stopLive_proj s c tid).1, ht]
      exact alookup_aerase_self s.liveTeachers tid
    · intro x hx
      rw [stopLive_eq_ite]
      by_cases hst : (getConn (teardownSession s tid).1 c).currentTeacherId = some tid
      · rw [if_pos hst]
        show x ∉ (alookup (roomLeave (teardownSession s tid).1.rooms tid c) tid).getD []
        apply not_mem_members_roomLeave
        rw [ht]
        exact evictAll_evicts tid subs s.rooms x hx
      · rw [if_neg hst]
        show x ∉ (alookup (teardownSession s tid).1.rooms tid).getD []
        rw [ht]
        exact evictAll_evicts tid subs s.rooms x hx
    · intro hcl
      rw [(stopLive_proj s c tid).2.1, ht]
      show (if s.currentLiveTeacher = some tid then none else s.currentLiveTeacher) = none
      rw [if_pos hcl]
    · rw [(stopLive_proj s c tid).2.2.2, ht]

/-- Concrete state with teacher `"T"` live from socket 0 and socket 1
subscribed; socket 2 is an unrelated connection. -/
def wSubsState : RelayState :=
  run initState
    [Cmd.connect 0, Cmd.connect 1, Cmd.connect 2, Cmd.startLive 0 "T",
     Cmd.joinTeacherRoom 1 "T"]

/-- Witness for C9 at a concrete input: the unrelated socket 2 stops
teacher `"T"`. -/
theorem stopLive_invoker_independent_witness :
    alookup wSubsState.liveTeachers "T" = some [1] ∧
    (stopLive wSubsState 2 "T").1.liveTeachers = (stopLive wSubsState 0 "T").1.liveTeachers ∧
    alookup (stopLive wSubsState 2 "T").1.liveTeachers "T" = none ∧
    (1 : Nat) ∉ roomMembers (stopLive wSubsState 2 "T").1 "T" ∧
    (stopLive wSubsState 2 "T").1.currentLiveTeacher = none ∧
    (stopLive wSubsState 2 "T").2 =
      wSubsState.conns.map (fun d => (d, Msg.teacherOffline "T")) :=
  ⟨rfl,
   (stopLive_invoker_independent.1 wSubsState "T" 2 0).1,
   (stopLive_invoker_independent.2 wSubsState "T" 2 [1] rfl).1,
   (stopLive_invoker_independent.2 wSubsState "T" 2 [1] rfl).2.1 1 (by decide),
   (stopLive_invoker_independent.2 wSubsState "T" 2 [1] rfl).2.2.1 rfl,
   (stopLive_invoker_independent.2 wSubsState "T" 2 [1] rfl).2.2.2⟩

/-! ### Frame lemmas for the remaining handlers -/

theorem teardownSession_frame (s : RelayState) (tid : String) :
    (teardownSession s tid).1.connState = s.connState ∧
    (teardownSession s tid).1.conns = s.conns := by
  cases h : alookup s.liveTeachers tid with
  | none => rw [teardownSession_none s tid h]; exact ⟨rfl, rfl⟩
  | some subs => rw [teardownSession_some s tid subs h]; exact ⟨rfl, rfl⟩

theorem removeSubscriber_frame (s : RelayState) (c : Nat) (tid : String) :
    (removeSubscriber s c tid).connState = s.connState ∧
    (removeSubscriber s c tid).conns = s.conns ∧
    (removeSubscriber s c tid).rooms = s.rooms ∧
    (removeSubscriber s c tid).currentLiveTeacher = s.currentLiveTeacher := by
  unfold removeSubscriber
  cases alookup s.liveTeachers tid with
  | none => exact ⟨rfl, rfl, rfl, rfl⟩
  | some subs => exact ⟨rfl, rfl, rfl, rfl⟩

theorem removeSubscriber_lookup_self (s : RelayState) (c : Nat) (tid : String) :
    alookup (removeSubscriber s c tid).liveTeachers tid =
      (alookup s.liveTeachers tid).map (List.filter (fun d => d ≠ c)) := by
  unfold removeSubscriber
  cases h : alookup s.liveTeachers tid with
  | none => rw [h]; rfl
  | some subs =>
    show alookup (aset s.liveTeachers tid (subs.filter (fun d => d ≠ c))) tid = _
    rw [alookup_aset_self]
    rfl

theorem removeSubscriber_lookup_ne (s : RelayState) (c : Nat) (tid t : String)
    (h : t ≠ tid) :
    alookup (removeSubscriber s c tid).liveTeachers t = alookup s.liveTeachers t := by
  unfold removeSubscriber
  cases hm : alookup s.liveTeachers tid with
  | none => rfl
  | some subs => exact alookup_aset_ne s.liveTeachers tid t _ h

theorem disconnectHandler_student (s0 : RelayState) (c : Nat) (tid : String)
    (hne : tid ≠ "") :
    disconnectHandler s0 c ⟨some tid, true⟩ = (removeSubscriber s0 c tid, []) := by
  show (if tid = "" then (s0, []) else (removeSubscriber s0 c tid, [])) = _
  rw [if_neg hne]

theorem disconnectHandler_teacher (s0 : RelayState) (c : Nat) (tid : String)
    (hne : tid ≠ "") :
    disconnectHandler s0 c ⟨some tid, false⟩ = teardownSession s0 tid := by
  show (if tid = "" then (s0, []) else teardownSession s0 tid) = _
  rw [if_neg hne]

theorem disconnectHandler_empty (s0 : RelayState) (c : Nat) (b : Bool) :
    disconnectHandler s0 c ⟨some "", b⟩ = (s0, []) := by
  show (if ("" : String) = "" then (s0, [])
    else if b = true then (removeSubscriber s0 c "", []) else teardownSession s0 "") = _
  rw [if_pos rfl]

theorem disconnectHandler_connState (s0 : RelayState) (c : Nat) (st : ConnState) :
    (disconnectHandler s0 c st).1.connState = s0.connState := by
  unfold disconnectHandler
  cases st.currentTeacherId with
  | none => rfl
  | some tid =>
    by_cases he : tid = ""
    · simp only [if_pos he]
    · simp only [if_neg he]
      by_cases hst : st.isStudent = true
      · simp only [if_pos hst]
        exact (removeSubscriber_frame s0 c tid).1
      · simp only [if_neg hst]
        exact (teardownSession_frame s0 tid).1

theorem disconnectHandler_conns (s0 : RelayState) (c : Nat) (st : ConnState) :
    (disconnectHandler s0 c st).1.conns = s0.conns := by
  unfold disconnectHandler
  cases st.currentTeacherId with
  | none => rfl
  | some tid =>
    by_cases he : tid = ""
    · simp only [if_pos he]
    · simp only [if_neg he]
      by_cases hst : st.isStudent = true
      · simp only [if_pos hst]
        exact (removeSubscriber_frame s0 c tid).2.1
      · simp only [if_neg hst]
        exact (teardownSession_frame s0 tid).2

theorem leaveTeacherRoom_eq_ite (s : RelayState) (c : Nat) (tid : String) :
    leaveTeacherRoom s c tid =
      (if (getConn { removeSubscriber s c tid with
              rooms := roomLeave (removeSubscriber s c tid).rooms tid c } c).currentTeacherId
            = some tid
       then { removeSubscriber s c tid with
                rooms := roomLeave (removeSubscriber s c tid).rooms tid c,
                connState := aset (removeSubscriber s c tid).connState c
                  { getConn { removeSubscriber s c tid with
                      rooms := roomLeave (removeSubscriber s c tid).rooms tid c } c with
                    currentTeacherId := none } }
       else { removeSubscriber s c tid with
                rooms := roomLeave (removeSubscriber s c tid).rooms tid c }, []) := by
  unfold leaveTeacherRoom
  by_cases hst : (getConn { removeSubscriber s c tid with
      rooms := roomLeave (removeSubscriber s c tid).rooms tid c } c).currentTeacherId
      = some tid
  · simp only [if_pos hst]
  · simp only [if_neg hst]

/-! ### C10: the role hint is monotone -/

/-- Reachable state with a student whose association is the empty
string: socket 0 goes live as `""` (the line-65 truthiness guard sees
`null` and accepts) and socket 1 joins `""`'s session (the `Map.has`
check is genuine). -/
def c10CexState : RelayState :=
  run initState
    [Cmd.connect 0, Cmd.connect 1, Cmd.startLive 0 "", Cmd.joinTeacherRoom 1 ""]

/-- C10 counterexample: socket 1 of `c10CexState` is student-flagged with
association `""` and sits in `""`'s subscriber set; on its disconnect the
handler's line-131 truthiness guard is falsy, so the subscriber-cleanup
branch does **not** run — the subscriber set still contains the dead
socket — refuting "such a connection's disconnect always takes the
subscriber-cleanup branch". -/
theorem isStudent_disconnect_cex :
    alookup c10CexState.connState 1 = some ⟨some "", true⟩ ∧
    alookup c10CexState.liveTeachers "" = some [1] ∧
    (disconnect c10CexState 1).2 = [] ∧
    alookup (disconnect c10CexState 1).1.liveTeachers "" = some [1] ∧
    1 ∉ (disconnect c10CexState 1).1.conns :=
  ⟨rfl, rfl, rfl, rfl, by decide⟩

/-- C10 (amended): a connection's role hint `isStudent` starts `false`,
and once `true` it is never cleared by any later operation on any
connection — not by `LeaveTeacherRoom`, `StopLive`, or even a later
accepted `GoLive` on the same connection — so the disconnect of a
student-flagged connection never takes the teacher-teardown branch: when
its associated teacher id is nonempty it takes the subscriber-cleanup
branch (emitting nothing, leaving `currentLiveTeacher` and every other
session untouched, and only deleting the connection from its associated
teacher's subscriber set), and when the association is the empty string
the handler's truthiness guard skips cleanup entirely, leaving everything
beyond the transport removal untouched. -/
theorem isStudent_monotone :
    (∀ (s : RelayState) (c : Nat), c ∉ s.conns →
      getConn (connect s c).1 c = ⟨none, false⟩) ∧
    (∀ (s : RelayState) (cmd : Cmd) (c : Nat), c ∈ s.conns →
      (getConn s c).isStudent = true →
      (getConn (step s cmd).1 c).isStudent = true ∨ c ∉ (step s cmd).1.conns) ∧
    (∀ (s : RelayState) (c : Nat) (tid : String),
      alookup s.connState c = some ⟨some tid, true⟩ → tid ≠ "" →
      (disconnect s c).2 = [] ∧
      (disconnect s c).1.currentLiveTeacher = s.currentLiveTeacher ∧
      alookup (disconnect s c).1.liveTeachers tid =
        (alookup s.liveTeachers tid).map (List.filter (fun d => d ≠ c)) ∧
      (∀ t, t ≠ tid →
        alookup (disconnect s c).1.liveTeachers t = alookup s.liveTeachers t)) ∧
    (∀ (s : RelayState) (c : Nat) (b : Bool),
      alookup s.connState c = some ⟨some "", b⟩ →
      disconnect s c = (removeConnTransport s c, [])) := by
  refine ⟨?_, ?_, ?_, ?_⟩
  · intro s c hc
    unfold connect
    rw [if_neg hc]
    simp [getConn, alookup_aset_self]
  · intro s cmd c hc h
    cases cmd with
    | connect d =>
      left
      show (getConn (connect s d).1 c).isStudent = true
      unfold connect
      by_cases hd : d ∈ s.conns
      · rw [if_pos hd]; exact h
      · rw [if_neg hd]
        have hdc : c ≠ d := fun e => hd (e ▸ hc)
        simpa [getConn, alookup_aset_ne s.connState d c _ hdc] using h
    | checkTeacherStatus d =>
      left
      show (getConn (checkTeacherStatus s d).1 c).isStudent = true
      rw [checkTeacherStatus_state]
      exact h
    | startLive d tid =>
      left
      show (getConn (startLive s d tid).1 c).isStudent = true
      cases hl : truthy s.currentLiveTeacher with
      | true => rw [startLive_busy s d tid hl]; exact h
      | false =>
        rw [startLive_accept_eq s d tid hl]
        by_cases hdc : d = c
        · subst hdc
          simpa [getConn, alookup_aset_self] using h
        · have hcd : c ≠ d := fun e => hdc e.symm
          simpa [getConn, alookup_aset_ne s.connState d c _ hcd] using h
    | stopLive d tid =>
      left
      show (getConn (stopLive s d tid).1 c).isStudent = true
      rw [stopLive_eq_ite]
      have hframe := (teardownSession_frame s tid).1
      by_cases hcond :
          (getConn (teardownSession s tid).1 d).currentTeacherId = some tid
      · rw [if_pos hcond]
        by_cases hdc : c = d
        · subst hdc
          simp only [getConn, alookup_aset_self, Option.getD_some]
          show (getConn (teardownSession s tid).1 c).isStudent = true
          simpa [getConn, hframe] using h
        · show ((alookup (aset (teardownSession s tid).1.connState d _) c).getD
            ⟨none, false⟩).isStudent = true
          rw [alookup_aset_ne _ d c _ hdc, hframe]
          exact h
      · rw [if_neg hcond]
        simpa [getConn, hframe] using h
    | joinTeacherRoom d tid =>
      left
      show (getConn (joinTeacherRoom s d tid).1 c).isStudent = true
      unfold joinTeacherRoom
      cases hm : alookup s.liveTeachers tid with
      | none => exact h
      | some subs =>
        by_cases hdc : d = c
        · subst hdc
          simp [getConn, alookup_aset_self]
        · have hcd : c ≠ d := fun e => hdc e.symm
          simpa [getConn, alookup_aset_ne s.connState d c _ hcd] using h
    | leaveTeacherRoom d tid =>
      left
      show (getConn (leaveTeacherRoom s d tid).1 c).isStudent = true
      rw [leaveTeacherRoom_eq_ite]
      have hframe := (removeSubscriber_frame s d tid).1
      by_cases hcond :
          (getConn { removeSubscriber s d tid with
              rooms := roomLeave (removeSubscriber s d tid).rooms tid d } d).currentTeacherId
            = some tid
      · rw [if_pos hcond]
        by_cases hdc : c = d
        · subst hdc
          simp only [getConn, alookup_aset_self, Option.getD_some]
          show (getConn { removeSubscriber s c tid with
              rooms := roomLeave (removeSubscriber s c tid).rooms tid c } c).isStudent = true
          simpa [getConn, hframe] using h
        · show ((alookup (aset (removeSubscriber s d tid).connState d _) c).getD
            ⟨none, false⟩).isStudent = true
          rw [alookup_aset_ne _ d c _ hdc, hframe]
          exact h
      · rw [if_neg hcond]
        simpa [getConn, hframe] using h
    | whiteboardUpdate d tid p =>
      left
      exact h
    | disconnect d =>
      by_cases hdc : c = d
      · subst hdc
        right
        show c ∉ (disconnect s c).1.conns
        unfold disconnect
        rw [disconnectHandler_conns]
        intro hmem
        have := (List.mem_filter.mp hmem).2
        simp at this
      · left
        show (getConn (disconnect s d).1 c).isStudent = true
        unfold disconnect
        have h1 := disconnectHandler_connState (removeConnTransport s d) d (getConn s d)
        show ((alookup (disconnectHandler (removeConnTransport s d) d
          (getConn s d)).1.connState c).getD ⟨none, false⟩).isStudent = true
        rw [h1]
        show ((alookup (aerase s.connState d) c).getD ⟨none, false⟩).isStudent = true
        rw [alookup_aerase_ne s.connState d c hdc]
        exact h
  · intro s c tid hconn hne
    have hg : getConn s c = ⟨some tid, true⟩ := by simp [getConn, hconn]
    have hd : disconnect s c = (removeSubscriber (removeConnTransport s c) c tid, []) := by
      unfold disconnect
      rw [hg]
      exact disconnectHandler_student (removeConnTransport s c) c tid hne
    rw [hd]
    refine ⟨rfl, ?_, ?_, ?_⟩
    · exact (removeSubscriber_frame _ c tid).2.2.2
    · exact removeSubscriber_lookup_self (removeConnTransport s c) c tid
    · intro t ht
      exact removeSubscriber_lookup_ne (removeConnTransport s c) c tid t ht
  · intro s c b hconn
    have hg : getConn s c = ⟨some "", b⟩ := by simp [getConn, hconn]
    unfold disconnect
    rw [hg]
    exact disconnectHandler_empty (removeConnTransport s c) c b

/-- Witness for the amended C10 at concrete inputs: a fresh socket starts
with the flag down; student socket 1 of `wSubsState` keeps the flag
across a rejected `GoLive`; disconnecting it (nonempty association `"T"`)
takes the subscriber-cleanup branch; and in `c10CexState` the
empty-association student's disconnect leaves everything beyond the
transport removal untouched. -/
theorem isStudent_monotone_witness :
    getConn (connect initState 5).1 5 = ⟨none, false⟩ ∧
    ((getConn (step wSubsState (Cmd.startLive 1 "U")).1 1).isStudent = true ∨
      1 ∉ (step wSubsState (Cmd.startLive 1 "U")).1.conns) ∧
    (disconnect wSubsState 1).2 = [] ∧
    (disconnect wSubsState 1).1.currentLiveTeacher = wSubsState.currentLiveTeacher ∧
    alookup (disconnect wSubsState 1).1.liveTeachers "T" =
      (alookup wSubsState.liveTeachers "T").map (List.filter (fun d => d ≠ 1)) ∧
    disconnect c10CexState 1 = (removeConnTransport c10CexState 1, []) :=
  ⟨isStudent_monotone.1 initState 5 (by decide),
   isStudent_monotone.2.1 wSubsState (Cmd.startLive 1 "U") 1 (by decide) rfl,
   (isStudent_monotone.2.2.1 wSubsState 1 "T" rfl (by decide)).1,
   (isStudent_monotone.2.2.1 wSubsState 1 "T" rfl (by decide)).2.1,
   (isStudent_monotone.2.2.1 wSubsState 1 "T" rfl (by decide)).2.2.1,
   isStudent_monotone.2.2.2 c10CexState 1 true rfl⟩

/-! ### C2: disconnecting the live teacher refines StopLive -/

/-- Reachable state in which socket 0 is the teacher-of-record for the
currently live teacher `""` (the line-65 truthiness guard sees `null`
and accepts the empty id). -/
def c2CexState : RelayState :=
  run initState [Cmd.connect 0, Cmd.connect 1, Cmd.startLive 0 ""]

/-- C2 counterexample: socket 0 of `c2CexState` is the teacher-of-record
for the currently live teacher `""`, yet its disconnect performs no
teardown at all — the line-131 truthiness guard is falsy on `""` — so no
`teacherOffline` is broadcast, the session survives, and
`currentLiveTeacher` stays set, unlike `StopLive("")`, whose `Map.has`
check is genuine and which does tear the session down. -/
theorem disconnect_live_teacher_cex :
    alookup c2CexState.connState 0 = some ⟨some "", false⟩ ∧
    c2CexState.currentLiveTeacher = some "" ∧
    alookup c2CexState.liveTeachers "" = some [] ∧
    (disconnect c2CexState 0).2 = [] ∧
    alookup (disconnect c2CexState 0).1.liveTeachers "" = some [] ∧
    (disconnect c2CexState 0).1.currentLiveTeacher = some "" ∧
    (stopLive c2CexState 0 "").2 =
      c2CexState.conns.map (fun e => (e, Msg.teacherOffline "")) ∧
    alookup (stopLive c2CexState 0 "").1.liveTeachers "" = none :=
  ⟨rfl, rfl, rfl, rfl, rfl, rfl, rfl, rfl⟩

/-- C2 (amended): when connection `c` is the teacher-of-record
(association `tid`, role hint not subscriber) for the currently live
teacher `tid`, with `tid` a nonempty identifier, its disconnect deletes
`tid`'s session, clears `currentLiveTeacher`, evicts every subscriber
from `tid`'s distribution scope, and broadcasts `teacherOffline` naming
`tid` to every remaining connection (former subscribers included); the
resulting state is exactly that of `StopLive(tid)` invoked on `c`
followed by `c`'s transport removal, and the outbound messages are
exactly those of `StopLive(tid)` minus the copy addressed to `c` itself.
(With the empty id the disconnect handler's truthiness guard skips the
teardown entirely.) -/
theorem disconnect_teacher_refines_stopLive (s : RelayState) (c : Nat) (tid : String)
    (subs : List Nat) (hne : tid ≠ "")
    (hconn : alookup s.connState c = some ⟨some tid, false⟩)
    (hlive : s.currentLiveTeacher = some tid)
    (hsess : alookup s.liveTeachers tid = some subs) :
    alookup (disconnect s c).1.liveTeachers tid = none ∧
    (disconnect s c).1.currentLiveTeacher = none ∧
    (∀ x ∈ subs, x ∉ roomMembers (disconnect s c).1 tid) ∧
    (disconnect s c).2 =
      (s.conns.filter (fun e => e ≠ c)).map (fun e => (e, Msg.teacherOffline tid)) ∧
    (disconnect s c).1 = removeConnTransport (stopLive s c tid).1 c ∧
    (disconnect s c).2 = (stopLive s c tid).2.filter (fun m => m.1 ≠ c) := by
  have hg : getConn s c = ⟨some tid, false⟩ := by simp [getConn, hconn]
  have hcl : (removeConnTransport s c).currentLiveTeacher = some tid := hlive
  have hD : disconnect s c =
      ({ removeConnTransport s c with
          rooms := evictAll tid subs (removeConnTransport s c).rooms,
          liveTeachers := aerase (removeConnTransport s c).liveTeachers tid,
          currentLiveTeacher := none },
        (removeConnTransport s c).conns.map (fun e => (e, Msg.teacherOffline tid))) := by
    unfold disconnect
    rw [hg, disconnectHandler_teacher (removeConnTransport s c) c tid hne,
      teardownSession_some (removeConnTransport s c) tid subs hsess]
    rw [if_pos hcl]
  have hTd := teardownSession_some s tid subs hsess
  have hconnA : (teardownSession s tid).1.connState = s.connState :=
    (teardownSession_frame s tid).1
  have hcond : (getConn (teardownSession s tid).1 c).currentTeacherId = some tid := by
    show ((alookup (teardownSession s tid).1.connState c).getD
      ⟨none, false⟩).currentTeacherId = some tid
    rw [hconnA, hconn]
    rfl
  have hstop : stopLive s c tid =
      ({ (teardownSession s tid).1 with
          rooms := roomLeave (teardownSession s tid).1.rooms tid c,
          connState := aset (teardownSession s tid).1.connState c
            { getConn (teardownSession s tid).1 c with currentTeacherId := none } },
        (teardownSession s tid).2) := by
    rw [stopLive_eq_ite, if_pos hcond]
  refine ⟨?_, ?_, ?_, ?_, ?_, ?_⟩
  · rw [hD]
    exact alookup_aerase_self s.liveTeachers tid
  · rw [hD]
  · intro x hx
    rw [hD]
    exact evictAll_evicts tid subs (removeConnTransport s c).rooms x hx
  · rw [hD]
    rfl
  · refine relayState_ext _ _ ?_ ?_ ?_ ?_ ?_
    · rw [hD, hstop, hTd]
      rfl
    · rw [hD, hstop, hTd]
      exact (aerase_aset s.connState c _).symm
    · rw [hD, hstop, hTd]
      rfl
    · rw [hD, hstop, hTd]
      show evictAll tid subs (eraseFromRooms c s.rooms) =
        eraseFromRooms c (roomLeave (evictAll tid subs s.rooms) tid c)
      rw [eraseFromRooms_roomLeave, eraseFromRooms_evictAll]
      rw [roomLeave_of_avoid c _ tid
        (roomsAvoid_evictAll c tid subs _ (roomsAvoid_eraseFromRooms c s.rooms))]
    · rw [hD, hstop, hTd]
      show (none : Option String) =
        if s.currentLiveTeacher = some tid then none else s.currentLiveTeacher
      rw [if_pos hlive]
  · rw [hD, hstop, hTd]
    exact (filter_fst_map_pair s.conns (Msg.teacherOffline tid) c).symm

/-- Witness for the amended C2 at a concrete input: in `wSubsState`
socket 0 is the teacher-of-record for live teacher `"T"` (nonempty) with
subscriber set `[1]`. -/
theorem disconnect_teacher_refines_stopLive_witness :
    alookup wSubsState.connState 0 = some ⟨some "T", false⟩ ∧
    alookup (disconnect wSubsState 0).1.liveTeachers "T" = none ∧
    (disconnect wSubsState 0).1.currentLiveTeacher = none ∧
    (1 : Nat) ∉ roomMembers (disconnect wSubsState 0).1 "T" ∧
    (disconnect wSubsState 0).2 =
      (wSubsState.conns.filter (fun e => e ≠ 0)).map
        (fun e => (e, Msg.teacherOffline "T")) ∧
    (disconnect wSubsState 0).1 = removeConnTransport (stopLive wSubsState 0 "T").1 0 ∧
    (disconnect wSubsState 0).2 =
      (stopLive wSubsState 0 "T").2.filter (fun m => m.1 ≠ 0) :=
  ⟨rfl,
   (disconnect_teacher_refines_stopLive wSubsState 0 "T" [1] (by decide) rfl rfl rfl).1,
   (disconnect_teacher_refines_stopLive wSubsState 0 "T" [1] (by decide) rfl rfl rfl).2.1,
   (disconnect_teacher_refines_stopLive wSubsState 0 "T" [1] (by decide) rfl rfl rfl).2.2.1 1
     (by decide),
   (disconnect_teacher_refines_stopLive wSubsState 0 "T" [1] (by decide) rfl rfl rfl).2.2.2.1,
   (disconnect_teacher_refines_stopLive wSubsState 0 "T" [1] (by decide) rfl rfl rfl).2.2.2.2.1,
   (disconnect_teacher_refines_stopLive wSubsState 0 "T" [1] (by decide) rfl rfl rfl).2.2.2.2.2⟩

/-! ### C3: whiteboard fan-out -/

/-- Reachable state with a stale room member: socket 0 goes live as
`"T"`, socket 1 joins, socket 1 (which the relay allows, being unrelated
to the session's ownership) stops `"T"`, and socket 2 then goes live as
`"T"` again.  Socket 0 is left inside `"T"`'s room although the fresh
session has no subscribers. -/
def c3CexState : RelayState :=
  run initState
    [Cmd.connect 0, Cmd.connect 1, Cmd.connect 2, Cmd.startLive 0 "T",
     Cmd.joinTeacherRoom 1 "T", Cmd.stopLive 1 "T", Cmd.startLive 2 "T"]

/-- C3 counterexample: in the reachable state `c3CexState`, teacher `"T"`
is live with subscriber set `[]` and teacher-of-record socket 2, yet a
`WhiteboardUpdate` sent on socket 2 is delivered to socket 0 — a
connection that is not in the subscriber set — so delivery is not
"exactly the subscriber set". -/
theorem whiteboard_fanout_cex :
    c3CexState.currentLiveTeacher = some "T" ∧
    alookup c3CexState.liveTeachers "T" = some [] ∧
    alookup c3CexState.connState 2 = some ⟨some "T", false⟩ ∧
    (whiteboardUpdate c3CexState 2 "T" "p").2 = [(0, Msg.whiteboardUpdate "T" "p")] :=
  ⟨rfl, rfl, rfl, rfl⟩

/-- C3 (amended): a `WhiteboardUpdate(tid, payload)` sent on connection
`c` changes no relay state and is delivered verbatim to exactly the
members of `tid`'s distribution scope (room) other than `c`, never to `c`
itself; whenever the scope minus the sender coincides with the subscriber
set `S` — as it does while rooms are maintained by join/leave/disconnect
bookkeeping alone — delivery is exactly to `S`. -/
theorem whiteboard_fanout (s : RelayState) (c : Nat) (tid payload : String)
    (S : List Nat) (hS : (roomMembers s tid).filter (fun d => d ≠ c) = S) :
    (whiteboardUpdate s c tid payload).1 = s ∧
    (whiteboardUpdate s c tid payload).2 =
      S.map (fun d => (d, Msg.whiteboardUpdate tid payload)) ∧
    (∀ m ∈ (whiteboardUpdate s c tid payload).2, m.1 ≠ c) := by
  refine ⟨rfl, ?_, ?_⟩
  · show ((roomMembers s tid).filter (fun d => d ≠ c)).map
      (fun d => (d, Msg.whiteboardUpdate tid payload)) = _
    rw [hS]
  · intro m hm
    have hm' : m ∈ ((roomMembers s tid).filter (fun d => d ≠ c)).map
        (fun d => (d, Msg.whiteboardUpdate tid payload)) := hm
    obtain ⟨d, hd, rfl⟩ := List.mem_map.mp hm'
    have := (List.mem_filter.mp hd).2
    simpa using this

/-- Witness for the amended C3 at a concrete input: in `wSubsState` the
scope of `"T"` minus the teacher's socket 0 is exactly the subscriber
set `[1]`. -/
theorem whiteboard_fanout_witness :
    (roomMembers wSubsState "T").filter (fun d => d ≠ 0) = [1] ∧
    (whiteboardUpdate wSubsState 0 "T" "data").1 = wSubsState ∧
    (whiteboardUpdate wSubsState 0 "T" "data").2 =
      [1].map (fun d => (d, Msg.whiteboardUpdate "T" "data")) :=
  ⟨rfl,
   (whiteboard_fanout wSubsState 0 "T" "data" [1] rfl).1,
   (whiteboard_fanout wSubsState 0 "T" "data" [1] rfl).2.1⟩

/-! ### C8: disconnecting a subscriber -/

/-- Extension of `c3CexState`: a fresh socket 3 joins the re-created live
session of `"T"`, becoming its only subscriber, while stale socket 0 is
still in the room. -/
def c8CexState : RelayState :=
  run c3CexState [Cmd.connect 3, Cmd.joinTeacherRoom 3 "T"]

/-- C8 counterexample: in the reachable state `c8CexState`, `"T"` is live
with subscriber set `[3]`; after subscriber 3 disconnects the remaining
subscriber set is empty, yet a subsequent `WhiteboardUpdate` from the
teacher-of-record socket 2 is still delivered to socket 0 — so it does
not reach "exactly the remaining subscribers". -/
theorem subscriber_disconnect_cex :
    c8CexState.currentLiveTeacher = some "T" ∧
    alookup c8CexState.liveTeachers "T" = some [3] ∧
    alookup c8CexState.connState 3 = some ⟨some "T", true⟩ ∧
    alookup (disconnect c8CexState 3).1.liveTeachers "T" = some [] ∧
    (whiteboardUpdate (disconnect c8CexState 3).1 2 "T" "p").2 =
      [(0, Msg.whiteboardUpdate "T" "p")] :=
  ⟨rfl, rfl, rfl, rfl, rfl⟩

/-- C8 (amended): when subscriber `b` (role hint student, associated with
the live teacher `tid`, a nonempty identifier, whose session has
subscriber set `subs`) disconnects, the relay removes `b` from `tid`'s
subscriber set and from every distribution scope, drops `b`'s connection
state, and changes nothing else: no message is emitted, `tid` remains
live, other sessions and other connections' state are untouched; a
subsequent `WhiteboardUpdate` then reaches exactly the remaining scope
members other than the sender — which is exactly the remaining
subscribers whenever the scope minus the teacher's connection was exact.
(With the empty association the disconnect handler's truthiness guard
skips the subscriber cleanup entirely.) -/
theorem subscriber_disconnect (s : RelayState) (b : Nat) (tid : String)
    (subs : List Nat) (hne : tid ≠ "")
    (hconn : alookup s.connState b = some ⟨some tid, true⟩)
    (hlive : s.currentLiveTeacher = some tid)
    (hsess : alookup s.liveTeachers tid = some subs) :
    (disconnect s b).2 = [] ∧
    alookup (disconnect s b).1.liveTeachers tid = some (subs.filter (fun d => d ≠ b)) ∧
    (disconnect s b).1.currentLiveTeacher = some tid ∧
    (∀ t, t ≠ tid → alookup (disconnect s b).1.liveTeachers t = alookup s.liveTeachers t) ∧
    (∀ d, d ≠ b → alookup (disconnect s b).1.connState d = alookup s.connState d) ∧
    (∀ t, roomMembers (disconnect s b).1 t = (roomMembers s t).filter (fun d => d ≠ b)) ∧
    (∀ ct p, (whiteboardUpdate (disconnect s b).1 ct tid p).2 =
      (((roomMembers s tid).filter (fun d => d ≠ b)).filter (fun d => d ≠ ct)).map
        (fun d => (d, Msg.whiteboardUpdate tid p))) := by
  have hg : getConn s b = ⟨some tid, true⟩ := by simp [getConn, hconn]
  have hd : disconnect s b = (removeSubscriber (removeConnTransport s b) b tid, []) := by
    unfold disconnect
    rw [hg]
    exact disconnectHandler_student (removeConnTransport s b) b tid hne
  have hroom : ∀ t, roomMembers (removeSubscriber (removeConnTransport s b) b tid) t =
      (roomMembers s t).filter (fun d => d ≠ b) := by
    intro t
    show (alookup (removeSubscriber (removeConnTransport s b) b tid).rooms t).getD [] = _
    rw [(removeSubscriber_frame (removeConnTransport s b) b tid).2.2.1]
    show (alookup (eraseFromRooms b s.rooms) t).getD [] = _
    rw [alookup_eraseFromRooms]
    show (Option.map (List.filter (fun d => d ≠ b)) (alookup s.rooms t)).getD [] =
      ((alookup s.rooms t).getD []).filter (fun d => d ≠ b)
    cases alookup s.rooms t with
    | none => rfl
    | some ms => rfl
  rw [hd]
  refine ⟨rfl, ?_, ?_, ?_, ?_, ?_, ?_⟩
  · rw [removeSubscriber_lookup_self]
    show (alookup s.liveTeachers tid).map (List.filter (fun d => d ≠ b)) = _
    rw [hsess]
    rfl
  · rw [(removeSubscriber_frame (removeConnTransport s b) b tid).2.2.2]
    exact hlive
  · intro t ht
    exact removeSubscriber_lookup_ne (removeConnTransport s b) b tid t ht
  · intro d hdb
    rw [(removeSubscriber_frame (removeConnTransport s b) b tid).1]
    exact alookup_aerase_ne s.connState b d hdb
  · exact hroom
  · intro ct p
    show ((roomMembers (removeSubscriber (removeConnTransport s b) b tid) tid).filter
        (fun d => d ≠ ct)).map (fun d => (d, Msg.whiteboardUpdate tid p)) = _
    rw [hroom tid]

/-- Witness for the amended C8 at a concrete input: subscriber 1 of
`wSubsState` disconnects. -/
theorem subscriber_disconnect_witness :
    alookup wSubsState.connState 1 = some ⟨some "T", true⟩ ∧
    (disconnect wSubsState 1).2 = [] ∧
    alookup (disconnect wSubsState 1).1.liveTeachers "T" =
      some ([1].filter (fun d => d ≠ 1)) ∧
    (disconnect wSubsState 1).1.currentLiveTeacher = some "T" ∧
    (whiteboardUpdate (disconnect wSubsState 1).1 0 "T" "p").2 =
      (((roomMembers wSubsState "T").filter (fun d => d ≠ 1)).filter
        (fun d => d ≠ 0)).map (fun d => (d, Msg.whiteboardUpdate "T" "p")) :=
  ⟨rfl,
   (subscriber_disconnect wSubsState 1 "T" [1] (by decide) rfl rfl rfl).1,
   (subscriber_disconnect wSubsState 1 "T" [1] (by decide) rfl rfl rfl).2.1,
   (subscriber_disconnect wSubsState 1 "T" [1] (by decide) rfl rfl rfl).2.2.1,
   (subscriber_disconnect wSubsState 1 "T" [1] (by decide) rfl rfl rfl).2.2.2.2.2.2 0 "p"⟩

end DigiBoard
